import Mathlib

/-!
Verification of the sensor polling engine of scantool (src/trunk/scantool/sensors.c).

The shallow embedding below translates the relevant parts of sensors.c:
the refresh-rate estimator `calculate_refresh_rate` (lines 276-327), the
per-tick handlers of `sensor_proc` (lines 770-1031), the response scanner
`find_valid_response` (lines 1034-1066) and the RPM decoder
`engine_rpm_formula` (lines 1069-1075) together with the payload
truncation/parse step of `sensor_proc` (lines 924-928).

C ints that are used as small non-negative counters are modelled as Nat;
comparisons that C performs on possibly-negative ints are performed after
a cast to Int.  C float/double arithmetic is modelled exactly over ℚ (all
constants involved, 10 and 0.001, are such that the claims under study do
not depend on rounding).  Serial I/O, the Allegro GUI and the text
classifier `process_response` live outside sensors.c; their outcomes enter
the handlers as explicit parameters (the response kind, the decoded string,
the button chosen on an alert box).
-/

namespace Scantool

/-- Unit system selector, global `system_of_measurements` (options.h). -/
inductive UnitSystem where
  | METRIC
  | IMPERIAL
deriving DecidableEq

/-- Sensor completion states, sensors.c lines 18-21. -/
inductive SensorState where
  | SENSOR_OFF
  | SENSOR_ACTIVE
  | SENSOR_NA
deriving DecidableEq

/-- Response kinds produced by the external classifier `process_response`
(constants from globals.h, which is not part of src/). -/
inductive ResponseType where
  | HEX_DATA
  | ERR_NO_DATA
  | BUS_ERROR
  | BUS_BUSY
  | DATA_ERROR
  | DATA_ERROR2
  | SERIAL_ERROR
  | RUBBISH
deriving DecidableEq

/-- Alert boxes raised by `sensor_proc`, identified by their condition. -/
inductive Alert where
  | BusError
  | BusBusy
  | DataError
  | SerialError
  | DeviceNotResponding
deriving DecidableEq

/-- Buttons of the "Device is not responding" alert3 box (line 996):
OK = 1, Configure Port = 2, Ignore = 3. -/
inductive UserChoice where
  | ok_btn
  | configure_btn
  | ignore_btn
deriving DecidableEq

/-- sensors.c line 13. -/
def SENSORS_PER_PAGE : Nat := 9

/-- sensors.c line 14. -/
def NUM_OF_RETRIES : Nat := 3

/-- sensors.c line 15. -/
def SENSORS_TO_TIME_OUT : Nat := 3

/-- sensors.c line 16 (milliseconds per tick of `refresh_time`). -/
def REFRESH_RATE_PRECISION : Nat := 10

/-- Modelled from the spec: SPECIAL_DELIMITER is defined in globals.h,
which is not under src/.  The spec fixes the delimiter of the accumulated
adapter text as the carriage-return character. -/
def SPECIAL_DELIMITER : Char := '\r'

/-- Combined mutable state of the polling engine: the static locals of
`sensor_proc` (lines 772-777), the file-level globals (lines 97-107) and
the static locals of `calculate_refresh_rate` (lines 278-282), plus the
`screen_buf` fields of the sensors on the active page. -/
structure ScantoolState where
  current_sensor : Nat
  new_page : Bool
  receiving_response : Bool
  num_of_sensors_timed_out : Nat
  ignore_device_not_connected : Bool
  retry_attempts : Nat
  device_connected : Bool
  sensors_on_page : Nat
  num_of_disabled_sensors : Nat
  inst_refresh_rate : ℚ
  avg_refresh_rate : ℚ
  refresh_time : Nat
  initialization_occured : Bool
  num_of_sensors_off : Nat
  reset_on_all_off_occured : Bool
  sensors_on_counter : Nat
  avg_refresh_rate_accumulator : ℚ
  screen_bufs : List String
deriving DecidableEq

/-- calculate_refresh_rate, sensors.c lines 276-327, translated branch for
branch.  The float globals/statics are modelled over ℚ; the C literal
0.001 is the exact rational 1/1000 here.  `install_int` and
`broadcast_dialog_message(MSG_REFRESH)` only affect the GUI/timer layer
and have no counterpart in the state. -/
def calculate_refresh_rate (s : ScantoolState) (sensor_state : SensorState) : ScantoolState :=
  if s.initialization_occured = false then
    -- lines 284-292: we received our first prompt, initialize
    if sensor_state = .SENSOR_ACTIVE then
      { s with refresh_time := 0, initialization_occured := true }
    else s
  else
    -- line 295: if all sensors on page are OFF (guard on num_of_sensors_off)
    if s.sensors_on_page ≤ s.num_of_sensors_off ∧ s.reset_on_all_off_occured = false then
      { s with inst_refresh_rate := 0, avg_refresh_rate := 0, reset_on_all_off_occured := true }
    else
      if sensor_state ≠ .SENSOR_OFF then
        -- lines 306-307
        let s1 := { s with reset_on_all_off_occured := false,
                           inst_refresh_rate :=
                             1 / ((s.refresh_time : ℚ) * (REFRESH_RATE_PRECISION : ℚ) * (0.001 : ℚ)) }
        -- lines 309-319: the counter comparison is int arithmetic in C
        let s2 :=
          if (s1.sensors_on_counter : Int) <
              (s1.sensors_on_page : Int) - (s1.num_of_disabled_sensors : Int) then
            { s1 with sensors_on_counter := s1.sensors_on_counter + 1,
                      avg_refresh_rate_accumulator :=
                        s1.avg_refresh_rate_accumulator + s1.inst_refresh_rate }
          else
            { s1 with avg_refresh_rate :=
                        s1.avg_refresh_rate_accumulator / (s1.sensors_on_counter : ℚ),
                      avg_refresh_rate_accumulator := 0,
                      sensors_on_counter := 0 }
        -- lines 321-322
        if sensor_state = .SENSOR_ACTIVE then { s2 with refresh_time := 0 } else s2
      else s

/-- Cursor advance, sensors.c lines 931, 945, 1017:
current_sensor = (current_sensor == sensors_on_page - 1) ? 0 : current_sensor + 1;
the comparison is int arithmetic in C. -/
def advance_cursor (s : ScantoolState) : Nat :=
  if (s.current_sensor : Int) = (s.sensors_on_page : Int) - 1 then 0 else s.current_sensor + 1

/-- Alert raised when the retry budget is exhausted, switch of
sensors.c lines 964-975 (no case, hence no alert, for other kinds). -/
def exhaust_alert : ResponseType → List Alert
  | .BUS_BUSY => [Alert.BusBusy]
  | .DATA_ERROR => [Alert.DataError]
  | .DATA_ERROR2 => [Alert.DataError]
  | .SERIAL_ERROR => [Alert.SerialError]
  | .RUBBISH => [Alert.SerialError]
  | _ => []

/-- PROMPT branch of `sensor_proc` MSG_IDLE, sensors.c lines 909-981.
`response_type` is the verdict of the external classifier
`process_response` (line 920); `decoded` is `some v` when
`find_valid_response` succeeded and the sensor formula produced the
string v (lines 924-929), `none` when it failed. -/
def on_prompt (s : ScantoolState) (response_type : ResponseType) (decoded : Option String) :
    ScantoolState × List Alert :=
  -- lines 911-914
  let s1 := { s with device_connected := true, num_of_sensors_timed_out := 0,
                     receiving_response := false }
  -- lines 916-917: synthetic first prompt after a page switch is discarded
  if s1.new_page then (s1, [])
  else
    -- every non-success case shares the failure prologue of lines 940-941
    -- (screen_buf := "N/A"; calculate_refresh_rate(SENSOR_NA)); line 937
    -- folds a HEX_DATA verdict whose token cannot be found into ERR_NO_DATA
    match response_type, decoded with
    | .HEX_DATA, some value =>
      -- lines 922-935
      let s2 := calculate_refresh_rate s1 .SENSOR_ACTIVE
      ({ s2 with screen_bufs := s2.screen_bufs.set s2.current_sensor value,
                 current_sensor := advance_cursor s2,
                 retry_attempts := NUM_OF_RETRIES }, [])
    | .HEX_DATA, none =>
      -- line 937 into lines 943-947
      let s3 := calculate_refresh_rate
        { s1 with screen_bufs := s1.screen_bufs.set s1.current_sensor "N/A" } .SENSOR_NA
      ({ s3 with current_sensor := advance_cursor s3, retry_attempts := NUM_OF_RETRIES }, [])
    | .ERR_NO_DATA, _ =>
      -- lines 943-947
      let s3 := calculate_refresh_rate
        { s1 with screen_bufs := s1.screen_bufs.set s1.current_sensor "N/A" } .SENSOR_NA
      ({ s3 with current_sensor := advance_cursor s3, retry_attempts := NUM_OF_RETRIES }, [])
    | .BUS_ERROR, _ =>
      -- lines 948-952
      let s3 := calculate_refresh_rate
        { s1 with screen_bufs := s1.screen_bufs.set s1.current_sensor "N/A" } .SENSOR_NA
      ({ s3 with retry_attempts := NUM_OF_RETRIES }, [Alert.BusError])
    | rt3, _ =>
      -- lines 955-978: BUS_BUSY, DATA_ERROR, DATA_ERROR2, SERIAL_ERROR, RUBBISH
      let s3 := calculate_refresh_rate
        { s1 with screen_bufs := s1.screen_bufs.set s1.current_sensor "N/A" } .SENSOR_NA
      if 0 < s3.retry_attempts then
        ({ s3 with retry_attempts := s3.retry_attempts - 1 }, [])
      else
        ({ s3 with retry_attempts := NUM_OF_RETRIES }, exhaust_alert rt3)

/-- serial_time_out branch of `sensor_proc` MSG_IDLE, sensors.c lines
985-1020.  `choice` is the button returned by the alert3 box (line 996);
the "Port is not ready" loop (lines 1006-1012) concerns `comport.status`,
which lives outside sensors.c, and is not part of this state. -/
def on_timeout (s : ScantoolState) (choice : UserChoice) : ScantoolState × List Alert :=
  -- lines 987-988
  let s1 := { s with receiving_response := false,
                     screen_bufs := s.screen_bufs.set s.current_sensor "N/A" }
  let p :=
    if SENSORS_TO_TIME_OUT ≤ s1.num_of_sensors_timed_out then
      -- lines 990-1002
      let s2 := { s1 with num_of_sensors_timed_out := 0, device_connected := false }
      if s2.ignore_device_not_connected = false then
        (if choice = .ignore_btn then { s2 with ignore_device_not_connected := true } else s2,
         [Alert.DeviceNotResponding])
      else (s2, [])
    else
      -- lines 1003-1004
      ({ s1 with num_of_sensors_timed_out := s1.num_of_sensors_timed_out + 1 }, [])
  -- line 1017
  ({ p.1 with current_sensor := advance_cursor p.1 }, p.2)

/-- MSG_UPDATE branch of `sensor_proc` for the first sensor slot
(d->d1 == 0), sensors.c lines 812-826: the page was flipped. -/
def on_page_update (s : ScantoolState) : ScantoolState :=
  { s with current_sensor := 0, num_of_sensors_timed_out := 0, new_page := true,
           inst_refresh_rate := 0, avg_refresh_rate := 0, refresh_time := 0 }

/-- Feed a sequence of classified prompt completions (with no decodable
token) to the engine, collecting the alerts raised. -/
def run_prompts : ScantoolState → List ResponseType → ScantoolState × List Alert
  | s, [] => (s, [])
  | s, rt :: rest =>
    let p := on_prompt s rt none
    let q := run_prompts p.1 rest
    (q.1, p.2 ++ q.2)

/-- Feed a sequence of request timeouts to the engine, collecting the
alerts raised; the n-th element of `choices` is the button the user
presses if the n-th timeout raises the alert box. -/
def run_timeouts : ScantoolState → List UserChoice → ScantoolState × List Alert
  | s, [] => (s, [])
  | s, c :: rest =>
    let p := on_timeout s c
    let q := run_timeouts p.1 rest
    (q.1, p.2 ++ q.2)

/-- Inner copy loop of `find_valid_response`, sensors.c lines 1045-1050:
copy characters into buf until the terminator or the delimiter. -/
def copy_to_delim : List Char → List Char
  | [] => []
  | c :: rest => if c = SPECIAL_DELIMITER then [] else c :: copy_to_delim rest

/-- Inner skip loop of `find_valid_response`, sensors.c lines 1057-1058:
advance in_ptr up to, but not past, the next delimiter.  The function
returns the suffix of the input at which in_ptr stops. -/
def skip_to_delim : List Char → List Char
  | [] => []
  | c :: rest => if c = SPECIAL_DELIMITER then c :: rest else skip_to_delim rest

/-- Outer while loop of `find_valid_response`, sensors.c lines 1041-1060,
with an explicit fuel parameter: the C loop has no structural decrease
(the skip loop stops at the delimiter without consuming it), so `none`
means the loop has not produced a result within `fuel` iterations.
`some buf` is the buffer contents when the loop exits: the copied token
after a match of '4','1', or the initial empty buffer when the input is
exhausted. -/
def fvr_loop : Nat → List Char → Option (List Char)
  | 0, _ => none
  | _ + 1, [] => some []
  | fuel + 1, c :: rest =>
    if c = '4' ∧ rest.head? = some '1' then some (copy_to_delim (c :: rest))
    else fvr_loop fuel (skip_to_delim (c :: rest))

/-- find_valid_response, sensors.c lines 1034-1066, on the accumulated
response text.  The C function returns TRUE and fills buf when a token
starting with "41" was copied, FALSE with an empty buf otherwise; here
the buffer is returned directly, and `none` means the loop has not
terminated within `fuel` iterations. -/
def find_valid_response (fuel : Nat) (response : List Char) : Option (List Char) :=
  fvr_loop fuel response

/-- find_valid_response terminates on the given input: some finite fuel
suffices for the outer loop to produce its result. -/
def FvrTerminates (response : List Char) : Prop :=
  ∃ fuel, (fvr_loop fuel response).isSome

/-- Value of a hexadecimal digit character, as accepted by strtol with
base 16. -/
def hex_digit_val (c : Char) : Option Nat :=
  if '0' ≤ c ∧ c ≤ '9' then some (c.toNat - '0'.toNat)
  else if 'a' ≤ c ∧ c ≤ 'f' then some (c.toNat - 'a'.toNat + 10)
  else if 'A' ≤ c ∧ c ≤ 'F' then some (c.toNat - 'A'.toNat + 10)
  else none

/-- Accumulating digit loop of strtol(str, 0, 16): consume the maximal
run of hex digits, stopping at the first non-digit. -/
def strtol_hex_digits : List Char → Nat → Nat
  | [], acc => acc
  | c :: rest, acc =>
    match hex_digit_val c with
    | some d => strtol_hex_digits rest (acc * 16 + d)
    | none => acc

/-- strtol(str, 0, 16) as used at sensors.c line 928: skip leading
spaces, then read the maximal run of hex digits (the sign handling of
strtol is irrelevant for adapter hex dumps and omitted). -/
def strtol_hex (l : List Char) : Nat :=
  strtol_hex_digits (l.dropWhile (fun c => c = ' ')) 0

/-- Payload extraction of `sensor_proc`, sensors.c lines 927-928:
buf[4 + sensor->bytes * 2] = 0 truncates the token (trimming adapter
zero-padding), and strtol(buf + 4, 0, 16) parses from the fifth
character, past the echoed mode and parameter id. -/
def decode_sensor_payload (token : List Char) (bytes : Nat) : Nat :=
  strtol_hex ((token.take (4 + bytes * 2)).drop 4)

/-- engine_rpm_formula, sensors.c lines 1069-1075.  The C code computes
(int)((float)data/4): the real-valued division is modelled over ℚ and the
int cast as the floor (data is non-negative; for payloads below 2^24 the
float division by 4 is exact, so ℚ loses nothing on 2-byte sensors). -/
def engine_rpm_formula (units : UnitSystem) (data : Nat) : String :=
  match units with
  | .METRIC => (Rat.floor ((data : ℚ) / 4)).repr ++ " r/min"
  | .IMPERIAL => (Rat.floor ((data : ℚ) / 4)).repr ++ " rpm"

/-- State of one sensor slot as seen by the MSG_TOGGLE handler of
`sensor_proc`: the dialog's D_DISABLED flag, the sensor's enabled field
and its screen_buf. -/
structure SensorSlot where
  flags_disabled : Bool
  enabled : Bool
  screen_buf : String
deriving DecidableEq

/-- Globals read and written by the MSG_TOGGLE handler. -/
structure ToggleGlobals where
  num_of_disabled_sensors : Int
  num_of_sensors_timed_out : Nat
  sensors_on_page : Int
deriving DecidableEq

/-- MSG_TOGGLE handler of `sensor_proc` for the dialog slot with index
d1, sensors.c lines 834-856, plus the fall-through at lines 1025-1028
that repaints a disabled sensor's screen_buf on every message that does
not return early. -/
def sensor_proc_toggle (c : Int) (d1 : Nat) (s : SensorSlot) (g : ToggleGlobals) :
    SensorSlot × ToggleGlobals :=
  if (d1 : Int) = c ∨ (c = -2 ∧ s.flags_disabled = false) ∨
      (c = -1 ∧ s.flags_disabled = true) then
    if s.flags_disabled then
      -- lines 837-843: enable
      (⟨false, true, "N/A"⟩,
       { g with num_of_disabled_sensors := g.num_of_disabled_sensors - 1 })
    else
      -- lines 844-852: disable
      let g1 := { g with num_of_disabled_sensors := g.num_of_disabled_sensors + 1 }
      let g2 :=
        if g1.num_of_disabled_sensors = g1.sensors_on_page then
          { g1 with num_of_sensors_timed_out := 0 }
        else g1
      (⟨true, false, "not monitoring"⟩, g2)
  else
    -- break; lines 1025-1028
    (if s.flags_disabled then { s with screen_buf := "not monitoring" } else s, g)

/-- Slot component of `sensor_proc_toggle`; it does not depend on the
globals. -/
def toggle_slot (c : Int) (d1 : Nat) (s : SensorSlot) : SensorSlot :=
  if (d1 : Int) = c ∨ (c = -2 ∧ s.flags_disabled = false) ∨
      (c = -1 ∧ s.flags_disabled = true) then
    if s.flags_disabled then ⟨false, true, "N/A"⟩ else ⟨true, false, "not monitoring"⟩
  else
    if s.flags_disabled then { s with screen_buf := "not monitoring" } else s

/-- broadcast_dialog_message(MSG_TOGGLE, c): the message is delivered to
every sensor slot in dialog order, threading the globals. -/
def broadcast_go (c : Int) (d1 : Nat) (slots : List SensorSlot) (g : ToggleGlobals) :
    List SensorSlot × ToggleGlobals :=
  match slots with
  | [] => ([], g)
  | s :: rest =>
    let p := sensor_proc_toggle c d1 s g
    let q := broadcast_go c (d1 + 1) rest p.2
    (p.1 :: q.1, q.2)

/-- Sensor table page plus the globals the toggle handler touches. -/
structure ToggleState where
  slots : List SensorSlot
  globals : ToggleGlobals
deriving DecidableEq

/-- Effect of one MSG_TOGGLE broadcast with parameter c on the active
page. -/
def broadcast_toggle (st : ToggleState) (c : Int) : ToggleState :=
  let p := broadcast_go c 0 st.slots st.globals
  ⟨p.1, p.2⟩

/-- Slot components of one MSG_TOGGLE broadcast: since
`sensor_proc_toggle` computes each new slot independently of the
globals, the broadcast acts on the slot list as this indexed map. -/
def broadcast_slots (c : Int) : Nat → List SensorSlot → List SensorSlot
  | _, [] => []
  | d1, s :: rest => toggle_slot c d1 s :: broadcast_slots c (d1 + 1) rest

/-! ### Concrete states used by the claims -/

/-- Engine state at the start of an exchange on a settled full page:
cursor on sensor 0, full retry budget, no timeouts recorded, device
connected, estimator initialized, 5 ticks since the last ACTIVE
completion. -/
def base_state : ScantoolState :=
  { current_sensor := 0, new_page := false, receiving_response := true,
    num_of_sensors_timed_out := 0, ignore_device_not_connected := false,
    retry_attempts := NUM_OF_RETRIES, device_connected := true,
    sensors_on_page := 9, num_of_disabled_sensors := 0,
    inst_refresh_rate := 0, avg_refresh_rate := 0, refresh_time := 5,
    initialization_occured := true, num_of_sensors_off := 0,
    reset_on_all_off_occured := false, sensors_on_counter := 0,
    avg_refresh_rate_accumulator := 0,
    screen_bufs := List.replicate 9 "N/A" }

/-- State in which all 9 sensors of the page are disabled and the
estimator holds non-zero rates; `num_of_sensors_off` is 0 because no code
path in sensors.c ever modifies it. -/
def all_off_state : ScantoolState :=
  { base_state with num_of_disabled_sensors := 9,
                    inst_refresh_rate := 2, avg_refresh_rate := 2 }

/-- Estimator state before the first ACTIVE completion has initialized
it, with 100 ticks on the clock. -/
def uninit_state : ScantoolState :=
  { base_state with initialization_occured := false, refresh_time := 100 }

/-- Exchange state whose retry budget is exhausted. -/
def exhausted_state : ScantoolState :=
  { base_state with retry_attempts := 0 }

/-- Exchange state with three consecutive timeouts already recorded. -/
def timed3_state : ScantoolState :=
  { base_state with num_of_sensors_timed_out := 3 }

/-- Initialized estimator whose averaging counter has reached the
threshold (9 sensors on the page, none disabled), accumulator at 3. -/
def window_full_state : ScantoolState :=
  { base_state with sensors_on_counter := 9, avg_refresh_rate_accumulator := 3 }

/-- Initialized estimator with 100 ticks since the last ACTIVE
completion. -/
def ticks100_state : ScantoolState :=
  { base_state with refresh_time := 100 }

/-- The spec's example input to extractPositiveResponse, with
carriage-return delimiters. -/
def c3_input : List Char := String.toList "ELM327\rBUS INIT: OK\r41 0C 1A F8\r>"

/-- An accumulated response whose first delimiter precedes every
occurrence of "41": the adapter answered "NO DATA". -/
def no_data_input : List Char := String.toList "NO DATA\r>"

/-- A 2-sensor page, both sensors enabled, with distinct display
strings, for exercising the toggle broadcast. -/
def toggle_demo : ToggleState :=
  { slots := [⟨false, true, "a"⟩, ⟨false, true, "b"⟩],
    globals := { num_of_disabled_sensors := 0, num_of_sensors_timed_out := 2,
                 sensors_on_page := 2 } }

/-! ### Helper lemmas -/

/-- Once in_ptr rests on a delimiter, one outer iteration of the
find_valid_response loop leaves it in place: the loop never produces a
result from such a position, whatever the fuel. -/
theorem fvr_loop_stuck (rest : List Char) : ∀ fuel, fvr_loop fuel (SPECIAL_DELIMITER :: rest) = none := by
  intro fuel
  induction fuel with
  | zero => rfl
  | succ n ih =>
    have hskip : skip_to_delim (SPECIAL_DELIMITER :: rest) = SPECIAL_DELIMITER :: rest := by
      simp [skip_to_delim]
    have hne : ¬(SPECIAL_DELIMITER = '4' ∧ (rest.head? = some '1')) := by
      intro h
      exact absurd h.1 (by decide)
    calc fvr_loop (n + 1) (SPECIAL_DELIMITER :: rest)
        = fvr_loop n (skip_to_delim (SPECIAL_DELIMITER :: rest)) := by
          simp [fvr_loop, hne]
      _ = none := by rw [hskip]; exact ih

/-- calculate_refresh_rate only writes the estimator fields: every field
owned by `sensor_proc` or by the classifier path is left unchanged, and
so is `num_of_sensors_off`, which no branch of sensors.c ever assigns. -/
theorem calculate_refresh_rate_preserves (s : ScantoolState) (e : SensorState) :
    (calculate_refresh_rate s e).current_sensor = s.current_sensor ∧
    (calculate_refresh_rate s e).retry_attempts = s.retry_attempts ∧
    (calculate_refresh_rate s e).new_page = s.new_page ∧
    (calculate_refresh_rate s e).receiving_response = s.receiving_response ∧
    (calculate_refresh_rate s e).sensors_on_page = s.sensors_on_page ∧
    (calculate_refresh_rate s e).num_of_disabled_sensors = s.num_of_disabled_sensors ∧
    (calculate_refresh_rate s e).screen_bufs = s.screen_bufs ∧
    (calculate_refresh_rate s e).num_of_sensors_off = s.num_of_sensors_off ∧
    (calculate_refresh_rate s e).num_of_sensors_timed_out = s.num_of_sensors_timed_out ∧
    (calculate_refresh_rate s e).device_connected = s.device_connected ∧
    (calculate_refresh_rate s e).ignore_device_not_connected = s.ignore_device_not_connected := by
  unfold calculate_refresh_rate
  refine ⟨?_, ?_, ?_, ?_, ?_, ?_, ?_, ?_, ?_, ?_, ?_⟩ <;>
    (dsimp only []; repeat' split) <;> rfl

/-- Projection form of the preservation lemma for rewriting. -/
theorem crr_retry_attempts (s : ScantoolState) (e : SensorState) :
    (calculate_refresh_rate s e).retry_attempts = s.retry_attempts :=
  (calculate_refresh_rate_preserves s e).2.1

/-- Projection form of the preservation lemma for rewriting. -/
theorem crr_current_sensor (s : ScantoolState) (e : SensorState) :
    (calculate_refresh_rate s e).current_sensor = s.current_sensor :=
  (calculate_refresh_rate_preserves s e).1

/-- Projection form of the preservation lemma for rewriting. -/
theorem crr_receiving_response (s : ScantoolState) (e : SensorState) :
    (calculate_refresh_rate s e).receiving_response = s.receiving_response :=
  (calculate_refresh_rate_preserves s e).2.2.2.1

/-! ### C1: the retry policy for retryable response kinds -/

/-- C1 counterexample.  The claim states that a sensor receiving three
consecutive Rubbish classifications triggers exactly one alert and then
advances the cursor.  Starting a fresh exchange (full retry budget of 3,
cursor on sensor 0 of a settled 9-sensor page), three consecutive
RUBBISH classifications raise no alert at all and leave the cursor where
it was; they merely run the retry counter down to 0. -/
theorem C1_counterexample :
    (run_prompts base_state [.RUBBISH, .RUBBISH, .RUBBISH]).2 = [] ∧
    (run_prompts base_state [.RUBBISH, .RUBBISH, .RUBBISH]).1.current_sensor = 0 ∧
    (run_prompts base_state [.RUBBISH, .RUBBISH, .RUBBISH]).1.retry_attempts = 0 := by
  decide

/-- C1 (amended).  For an exchange classified BusBusy, DataError,
DataError2, SerialError or Rubbish on a settled page: if the retry
counter is positive it is decremented and the same sensor is re-polled —
no alert, cursor unchanged, receive flag cleared for the re-send; if the
counter has reached 0, the category-specific alert fires, the counter is
reset to its maximum, and the cursor again does not advance.  Hence a
sensor receiving four consecutive Rubbish classifications from a full
budget triggers exactly one alert, with the counter back at maximum and
the cursor never advanced. -/
theorem C1_retry_policy :
    (∀ (s : ScantoolState) (rt : ResponseType),
      s.new_page = false →
      (rt = .BUS_BUSY ∨ rt = .DATA_ERROR ∨ rt = .DATA_ERROR2 ∨
        rt = .SERIAL_ERROR ∨ rt = .RUBBISH) →
      (0 < s.retry_attempts →
        (on_prompt s rt none).1.retry_attempts = s.retry_attempts - 1 ∧
        (on_prompt s rt none).1.current_sensor = s.current_sensor ∧
        (on_prompt s rt none).1.receiving_response = false ∧
        (on_prompt s rt none).2 = []) ∧
      (s.retry_attempts = 0 →
        (on_prompt s rt none).1.retry_attempts = NUM_OF_RETRIES ∧
        (on_prompt s rt none).1.current_sensor = s.current_sensor ∧
        (on_prompt s rt none).2 = exhaust_alert rt)) ∧
    (run_prompts base_state [.RUBBISH, .RUBBISH, .RUBBISH, .RUBBISH]).2 = [Alert.SerialError] ∧
    (run_prompts base_state [.RUBBISH, .RUBBISH, .RUBBISH, .RUBBISH]).1.retry_attempts
      = NUM_OF_RETRIES ∧
    (run_prompts base_state [.RUBBISH, .RUBBISH, .RUBBISH, .RUBBISH]).1.current_sensor = 0 := by
  refine ⟨?_, by decide, by decide, by decide⟩
  intro s rt h1 h2
  rcases h2 with rfl | rfl | rfl | rfl | rfl <;>
  · constructor
    · intro hpos
      simp only [on_prompt]
      rw [h1]
      simp only [Bool.false_eq_true, if_false, crr_retry_attempts,
        crr_current_sensor, crr_receiving_response]
      rw [if_pos hpos]
      simp
    · intro hz
      simp only [on_prompt]
      rw [h1]
      simp only [Bool.false_eq_true, if_false, crr_retry_attempts,
        crr_current_sensor, crr_receiving_response, hz]
      simp [exhaust_alert]

/-- C1 witness: the amended theorem instantiated on a concrete exchange
with one retry left and then with an exhausted budget. -/
theorem C1_retry_policy_witness :
    ((on_prompt base_state .RUBBISH none).1.retry_attempts = base_state.retry_attempts - 1 ∧
     (on_prompt base_state .RUBBISH none).1.current_sensor = base_state.current_sensor ∧
     (on_prompt base_state .RUBBISH none).1.receiving_response = false ∧
     (on_prompt base_state .RUBBISH none).2 = []) ∧
    ((on_prompt exhausted_state .BUS_BUSY none).1.retry_attempts = NUM_OF_RETRIES ∧
     (on_prompt exhausted_state .BUS_BUSY none).1.current_sensor = exhausted_state.current_sensor ∧
     (on_prompt exhausted_state .BUS_BUSY none).2 = exhaust_alert .BUS_BUSY) :=
  ⟨(C1_retry_policy.1 base_state .RUBBISH rfl (by decide)).1 (by decide),
   (C1_retry_policy.1 exhausted_state .BUS_BUSY rfl (by decide)).2 rfl⟩

/-! ### C2: the timeout policy -/

/-- C2 counterexample.  The claim states that after exactly 3
consecutive timeouts the device-connected flag becomes false and exactly
one "device not responding" alert fires.  Starting from a fresh session
(timeout counter 0, device connected, alert not suppressed), three
consecutive timeouts raise no alert and leave the flag true: the check
`num_of_sensors_timed_out >= SENSORS_TO_TIME_OUT` (line 990) runs before
the increment, so the alert only fires on the fourth timeout. -/
theorem C2_counterexample :
    (run_timeouts base_state [.ok_btn, .ok_btn, .ok_btn]).2 = [] ∧
    (run_timeouts base_state [.ok_btn, .ok_btn, .ok_btn]).1.device_connected = true ∧
    (run_timeouts base_state [.ok_btn, .ok_btn, .ok_btn]).1.num_of_sensors_timed_out = 3 := by
  decide

/-- C2 (amended).  On every timeout the current sensor's display string
is set to "N/A" and the cursor advances, regardless of the threshold.
While fewer than 3 consecutive timeouts have been recorded, a timeout
merely increments the counter, fires no alert and leaves the connected
flag alone; a timeout arriving with the counter at the threshold (i.e.
the 4th consecutive one) resets the counter, marks the device
disconnected, and fires exactly one "device not responding" alert unless
the user has previously chosen "ignore", which suppresses it for the
rest of the session.  Concretely: 4 consecutive timeouts from a fresh
session fire exactly one alert and clear the connected flag, and 4
further timeouts after choosing "ignore" fire none. -/
theorem C2_timeout_policy :
    (∀ (s : ScantoolState) (choice : UserChoice),
      ((on_timeout s choice).1.screen_bufs = s.screen_bufs.set s.current_sensor "N/A") ∧
      ((on_timeout s choice).1.current_sensor = advance_cursor s) ∧
      (s.num_of_sensors_timed_out < SENSORS_TO_TIME_OUT →
        (on_timeout s choice).2 = [] ∧
        (on_timeout s choice).1.num_of_sensors_timed_out = s.num_of_sensors_timed_out + 1 ∧
        (on_timeout s choice).1.device_connected = s.device_connected) ∧
      (SENSORS_TO_TIME_OUT ≤ s.num_of_sensors_timed_out →
        (on_timeout s choice).1.device_connected = false ∧
        (on_timeout s choice).1.num_of_sensors_timed_out = 0 ∧
        (s.ignore_device_not_connected = true → (on_timeout s choice).2 = []) ∧
        (s.ignore_device_not_connected = false →
          (on_timeout s choice).2 = [Alert.DeviceNotResponding]))) ∧
    (run_timeouts base_state [.ok_btn, .ok_btn, .ok_btn, .ok_btn]).2
      = [Alert.DeviceNotResponding] ∧
    (run_timeouts base_state [.ok_btn, .ok_btn, .ok_btn, .ok_btn]).1.device_connected = false ∧
    (run_timeouts base_state
        [.ok_btn, .ok_btn, .ok_btn, .ignore_btn, .ok_btn, .ok_btn, .ok_btn, .ok_btn]).2
      = [Alert.DeviceNotResponding] := by
  refine ⟨?_, by decide, by decide, by decide⟩
  intro s choice
  refine ⟨?_, ?_, ?_, ?_⟩
  · simp only [on_timeout]
    repeat' split
    all_goals rfl
  · simp only [on_timeout, advance_cursor]
    repeat' split
    all_goals simp_all
  · intro h
    simp only [on_timeout]
    rw [if_neg (not_le.mpr h)]
    exact ⟨rfl, rfl, rfl⟩
  · intro h
    simp only [on_timeout]
    rw [if_pos h]
    refine ⟨?_, ?_, ?_, ?_⟩
    · repeat' split
      all_goals rfl
    · repeat' split
      all_goals rfl
    · intro hig
      rw [if_neg (by simp [hig])]
    · intro hig
      rw [if_pos (by simp [hig])]

/-- C2 witness: the amended theorem instantiated below the threshold and
at the threshold. -/
theorem C2_timeout_policy_witness :
    (on_timeout base_state .ok_btn).1.screen_bufs
      = base_state.screen_bufs.set base_state.current_sensor "N/A" ∧
    (on_timeout base_state .ok_btn).2 = [] ∧
    (on_timeout base_state .ok_btn).1.num_of_sensors_timed_out
      = base_state.num_of_sensors_timed_out + 1 ∧
    (on_timeout timed3_state .ok_btn).1.device_connected = false ∧
    (on_timeout timed3_state .ok_btn).2 = [Alert.DeviceNotResponding] :=
  ⟨(C2_timeout_policy.1 base_state .ok_btn).1,
   ((C2_timeout_policy.1 base_state .ok_btn).2.2.1 (by decide)).1,
   ((C2_timeout_policy.1 base_state .ok_btn).2.2.1 (by decide)).2.1,
   ((C2_timeout_policy.1 timed3_state .ok_btn).2.2.2 (by decide)).1,
   ((C2_timeout_policy.1 timed3_state .ok_btn).2.2.2 (by decide)).2.2.2 rfl⟩

/-! ### C3: extractPositiveResponse on the spec's example input -/

/-- C3.  The claim states that find_valid_response, on the accumulated
text "ELM327\rBUS INIT: OK\r41 0C 1A F8\r>" with carriage-return
delimiter, skips the preamble and returns "41 0C 1A F8".  It does not:
the skip loop (lines 1057-1058) stops at the first delimiter without
consuming it, so the outer loop re-examines the same carriage return
forever.  No amount of fuel makes the loop produce a result on this
input: the code never returns. -/
theorem C3_find_valid_response_diverges :
    ∀ fuel, find_valid_response fuel c3_input = none := by
  intro fuel
  cases fuel with
  | zero => rfl
  | succ n =>
    show fvr_loop n (SPECIAL_DELIMITER :: String.toList "BUS INIT: OK\r41 0C 1A F8\r>") = none
    exact fvr_loop_stuck _ n

/-! ### C10: termination of find_valid_response -/

/-- C10.  The claim states that find_valid_response terminates for every
input, in particular when a delimiter occurs before any sub-token
beginning with "41".  Exactly those inputs make it loop forever: on the
adapter reply "NO DATA\r>" the first carriage return precedes every "41"
and the outer loop never leaves it, whatever the fuel. -/
theorem C10_find_valid_response_nontermination :
    ∀ fuel, find_valid_response fuel no_data_input = none := by
  intro fuel
  cases fuel with
  | zero => rfl
  | succ n =>
    show fvr_loop n (SPECIAL_DELIMITER :: String.toList ">") = none
    exact fvr_loop_stuck _ n

/-! ### C4: page-switch reset -/

/-- C4 counterexample.  The claim states that switching the active page
resets the retry counter to its maximum (3).  It does not: the
MSG_UPDATE branch (lines 812-826) never touches retry_attempts, so a
page switch entered with one retry left still has one retry left. -/
theorem C4_counterexample :
    (on_page_update { base_state with retry_attempts := 1 }).retry_attempts = 1 ∧
    (1 : Nat) ≠ NUM_OF_RETRIES := by decide

/-- C4 (amended).  Switching the active page resets the polling cursor
to 0 and clears the refresh-rate state — instantaneous rate, average
rate, tick counter and consecutive-timeout counter — to zero (and raises
the new-page flag), but leaves the retry counter unchanged. -/
theorem C4_page_reset (s : ScantoolState) :
    (on_page_update s).current_sensor = 0 ∧
    (on_page_update s).num_of_sensors_timed_out = 0 ∧
    (on_page_update s).new_page = true ∧
    (on_page_update s).inst_refresh_rate = 0 ∧
    (on_page_update s).avg_refresh_rate = 0 ∧
    (on_page_update s).refresh_time = 0 ∧
    (on_page_update s).retry_attempts = s.retry_attempts :=
  ⟨rfl, rfl, rfl, rfl, rfl, rfl, rfl⟩

/-! ### C5: all-sensors-off pinning of the refresh rates -/

/-- C5.  The claim states that whenever every sensor on the active page
is disabled, the estimator pins both rates to 0 and suspends sampling.
The guard that should detect this (line 295) tests the static
`num_of_sensors_off`, which is initialized to 0 and never assigned
anywhere in sensors.c — the first conjunct shows `calculate_refresh_rate`
itself never changes it.  Consequently, in a state where all 9 sensors of
the page are disabled and both rates are 2, an OFF completion leaves the
state — rates included — completely unchanged instead of pinning the
rates to 0. -/
theorem C5_all_off_guard_dead :
    (∀ (s : ScantoolState) (e : SensorState),
       (calculate_refresh_rate s e).num_of_sensors_off = s.num_of_sensors_off) ∧
    all_off_state.num_of_disabled_sensors = all_off_state.sensors_on_page ∧
    calculate_refresh_rate all_off_state .SENSOR_OFF = all_off_state ∧
    all_off_state.inst_refresh_rate = 2 ∧
    all_off_state.avg_refresh_rate = 2 :=
  ⟨fun s e => (calculate_refresh_rate_preserves s e).2.2.2.2.2.2.2.1, rfl, rfl, rfl, rfl⟩

/-! ### C6: RPM decoding -/

/-- C6.  Payload extraction and RPM decoding: the token is truncated to
4 + 2·bytes characters, the echoed mode and parameter id are skipped and
the rest parses as a big-endian hex integer — so "410C1AF8" with a
2-byte sensor yields 6904, and "41057C000000" with a 1-byte sensor
yields 0x7C = 124, trimming the adapter's zero padding; the RPM formula
renders the integer part of raw/4 with the unit-dependent suffix, e.g.
6904 ↦ "1726 r/min" in metric units. -/
theorem C6_rpm_decoding :
    decode_sensor_payload (String.toList "410C1AF8") 2 = 6904 ∧
    engine_rpm_formula .METRIC 6904 = "1726 r/min" ∧
    decode_sensor_payload (String.toList "41057C000000") 1 = 124 ∧
    ∀ raw : Nat, engine_rpm_formula .METRIC raw = Nat.repr (raw / 4) ++ " r/min" ∧
                 engine_rpm_formula .IMPERIAL raw = Nat.repr (raw / 4) ++ " rpm" := by
  have hfloor : ∀ raw : Nat, Rat.floor ((raw : ℚ) / 4) = ((raw / 4 : ℕ) : ℤ) := by
    intro raw
    rw [Rat.floor_def', ← Rat.floor_def]
    exact_mod_cast Rat.floor_natCast_div_natCast raw 4
  have hgen : ∀ raw : Nat, engine_rpm_formula .METRIC raw = Nat.repr (raw / 4) ++ " r/min" ∧
      engine_rpm_formula .IMPERIAL raw = Nat.repr (raw / 4) ++ " rpm" := by
    intro raw
    constructor
    · simp only [engine_rpm_formula, hfloor]; rfl
    · simp only [engine_rpm_formula, hfloor]; rfl
  refine ⟨by decide, ?_, by decide, hgen⟩
  rw [(hgen 6904).1]
  rfl

/-! ### C7: the averaging window of the estimator -/

/-- C7.  On a non-OFF completion of an initialized estimator whose
all-off guard is not triggered: while the sample count is below
(sensorsOnPage − disabledSensorCount), the new instantaneous sample is
accumulated and the count incremented; once the count has reached the
threshold, the average rate becomes accumulatedSum / sampleCount and
both the accumulator and the count restart at zero. -/
theorem C7_averaging_window (s : ScantoolState) (e : SensorState)
    (h1 : s.initialization_occured = true)
    (h2 : s.num_of_sensors_off < s.sensors_on_page)
    (h3 : e ≠ .SENSOR_OFF) :
    (((s.sensors_on_counter : Int) <
        (s.sensors_on_page : Int) - (s.num_of_disabled_sensors : Int)) →
      (calculate_refresh_rate s e).sensors_on_counter = s.sensors_on_counter + 1 ∧
      (calculate_refresh_rate s e).avg_refresh_rate_accumulator
        = s.avg_refresh_rate_accumulator + (calculate_refresh_rate s e).inst_refresh_rate ∧
      (calculate_refresh_rate s e).avg_refresh_rate = s.avg_refresh_rate) ∧
    (¬((s.sensors_on_counter : Int) <
        (s.sensors_on_page : Int) - (s.num_of_disabled_sensors : Int)) →
      (calculate_refresh_rate s e).avg_refresh_rate
        = s.avg_refresh_rate_accumulator / (s.sensors_on_counter : ℚ) ∧
      (calculate_refresh_rate s e).avg_refresh_rate_accumulator = 0 ∧
      (calculate_refresh_rate s e).sensors_on_counter = 0) := by
  have hguard : ¬(s.sensors_on_page ≤ s.num_of_sensors_off ∧ s.reset_on_all_off_occured = false) :=
    fun h => absurd h.1 (not_le.mpr h2)
  constructor
  · intro hlt
    unfold calculate_refresh_rate
    rw [h1]
    simp only [Bool.true_eq_false, if_false, if_neg hguard, if_pos h3, if_pos hlt]
    split <;> simp
  · intro hge
    unfold calculate_refresh_rate
    rw [h1]
    simp only [Bool.true_eq_false, if_false, if_neg hguard, if_pos h3, if_neg hge]
    split <;> simp

/-- C7 witness: a page of 9 enabled sensors whose counter has reached
the threshold publishes accumulator/counter and restarts the window. -/
theorem C7_averaging_window_witness :
    (calculate_refresh_rate window_full_state .SENSOR_NA).avg_refresh_rate
      = (3 : ℚ) / ((9 : Nat) : ℚ) ∧
    (calculate_refresh_rate window_full_state .SENSOR_NA).avg_refresh_rate_accumulator = 0 ∧
    (calculate_refresh_rate window_full_state .SENSOR_NA).sensors_on_counter = 0 :=
  (C7_averaging_window window_full_state .SENSOR_NA rfl (by decide) (by decide)).2 (by decide)

/-! ### C8: the instantaneous refresh rate -/

/-- C8 counterexample.  The claim states that on any non-OFF completion
(with not every sensor off) the instantaneous rate is set to
1/(ticks × tickPeriod), which at 100 ticks is 1 Hz.  Before the first
ACTIVE completion the estimator is uninitialized and does nothing: an NA
completion with 100 ticks elapsed leaves the state untouched and the
instantaneous rate at 0, not 1. -/
theorem C8_counterexample :
    calculate_refresh_rate uninit_state .SENSOR_NA = uninit_state ∧
    uninit_state.inst_refresh_rate = 0 ∧
    uninit_state.refresh_time = 100 ∧
    uninit_state.num_of_sensors_off < uninit_state.sensors_on_page ∧
    1 / ((uninit_state.refresh_time : ℚ) * (REFRESH_RATE_PRECISION : ℚ) * (0.001 : ℚ)) = 1 ∧
    (0 : ℚ) ≠ 1 := by
  refine ⟨rfl, rfl, rfl, by decide, ?_, by norm_num⟩
  show 1 / (((100 : Nat) : ℚ) * ((10 : Nat) : ℚ) * (0.001 : ℚ)) = 1
  norm_num

/-- With the 10 ms tick period, 100 elapsed ticks make the C expression
1/(refresh_time·REFRESH_RATE_PRECISION·0.001) equal to exactly 1 Hz. -/
theorem hundred_ticks_is_one_hertz :
    1 / (((100 : Nat) : ℚ) * ((10 : Nat) : ℚ) * (0.001 : ℚ)) = 1 := by
  norm_num

/-- C8 (amended).  Once the estimator has been initialized by its first
ACTIVE completion, any non-OFF completion (with the all-off guard not
triggered) sets the instantaneous rate to
1/(ticksSinceLastActive × 10 ms) and resets the tick counter to 0
exactly when the completion is ACTIVE. -/
theorem C8_inst_rate (s : ScantoolState) (e : SensorState)
    (h1 : s.initialization_occured = true)
    (h2 : s.num_of_sensors_off < s.sensors_on_page)
    (h3 : e ≠ .SENSOR_OFF) :
    (calculate_refresh_rate s e).inst_refresh_rate
      = 1 / ((s.refresh_time : ℚ) * (REFRESH_RATE_PRECISION : ℚ) * (0.001 : ℚ)) ∧
    (calculate_refresh_rate s e).refresh_time
      = (if e = .SENSOR_ACTIVE then 0 else s.refresh_time) := by
  have hguard : ¬(s.sensors_on_page ≤ s.num_of_sensors_off ∧ s.reset_on_all_off_occured = false) :=
    fun h => absurd h.1 (not_le.mpr h2)
  unfold calculate_refresh_rate
  rw [h1]
  simp only [Bool.true_eq_false, if_false, if_neg hguard, if_pos h3]
  repeat' split
  all_goals simp_all

/-- C8 witness: 100 ticks between two ACTIVE completions give an
instantaneous rate of 1/(100·10·0.001) — which is 1 Hz — and reset the
tick counter. -/
theorem C8_inst_rate_witness :
    (calculate_refresh_rate ticks100_state .SENSOR_ACTIVE).inst_refresh_rate
      = 1 / (((100 : Nat) : ℚ) * (REFRESH_RATE_PRECISION : ℚ) * (0.001 : ℚ)) ∧
    (calculate_refresh_rate ticks100_state .SENSOR_ACTIVE).refresh_time = 0 ∧
    1 / (((100 : Nat) : ℚ) * (REFRESH_RATE_PRECISION : ℚ) * (0.001 : ℚ)) = 1 := by
  have h := C8_inst_rate ticks100_state .SENSOR_ACTIVE rfl (by decide) (by decide)
  exact ⟨h.1, h.2, hundred_ticks_is_one_hertz⟩

/-! ### C9: toggling a sensor twice -/

/-- The slot produced by the toggle handler does not depend on the
shared counters. -/
theorem sensor_proc_toggle_fst (c : Int) (d1 : Nat) (s : SensorSlot) (g : ToggleGlobals) :
    (sensor_proc_toggle c d1 s g).1 = toggle_slot c d1 s := by
  unfold sensor_proc_toggle toggle_slot
  repeat' split
  all_goals rfl

/-- The slot list after a broadcast is the indexed map of `toggle_slot`
over the slots. -/
theorem broadcast_go_fst (c : Int) (slots : List SensorSlot) :
    ∀ (d1 : Nat) (g : ToggleGlobals),
      (broadcast_go c d1 slots g).1 = broadcast_slots c d1 slots := by
  induction slots with
  | nil => intro d1 g; rfl
  | cons s rest ih =>
    intro d1 g
    simp only [broadcast_go, broadcast_slots, sensor_proc_toggle_fst, ih]

/-- Positional description of the broadcast: slot k of the result is
slot k of the input passed through `toggle_slot` at dialog index
d1 + k. -/
theorem broadcast_slots_get (c : Int) (slots : List SensorSlot) :
    ∀ (d1 k : Nat),
      (broadcast_slots c d1 slots).get? k = (slots.get? k).map (toggle_slot c (d1 + k)) := by
  induction slots with
  | nil => intro d1 k; simp [broadcast_slots]
  | cons s rest ih =>
    intro d1 k
    cases k with
    | zero => simp [broadcast_slots]
    | succ k =>
      have harith : d1 + 1 + k = d1 + (k + 1) := by omega
      simp only [broadcast_slots, List.get?_cons_succ, ih (d1 + 1) k, harith]

/-- MSG_TOGGLE with c = i on the matching enabled slot disables it,
lines 844-852. -/
theorem toggle_slot_matched_on (i : Nat) (s : SensorSlot) (h : s.flags_disabled = false) :
    toggle_slot (i : Int) i s = ⟨true, false, "not monitoring"⟩ := by
  simp [toggle_slot, h]

/-- MSG_TOGGLE with c = i on the matching disabled slot re-enables it,
lines 837-843. -/
theorem toggle_slot_matched_off (i : Nat) (s : SensorSlot) (h : s.flags_disabled = true) :
    toggle_slot (i : Int) i s = ⟨false, true, "N/A"⟩ := by
  simp [toggle_slot, h]

/-- MSG_TOGGLE with c = i ≥ 0 leaves every other slot unchanged,
provided a disabled slot already displays "not monitoring" (which the
fall-through at lines 1025-1028 would re-write anyway). -/
theorem toggle_slot_unmatched (i j : Nat) (s : SensorSlot) (hne : j ≠ i)
    (hinv : s.flags_disabled = true → s.screen_buf = "not monitoring") :
    toggle_slot (i : Int) j s = s := by
  have hcond : ¬((j : Int) = (i : Int) ∨ ((i : Int) = -2 ∧ s.flags_disabled = false) ∨
      ((i : Int) = -1 ∧ s.flags_disabled = true)) := by
    push_neg
    refine ⟨by exact_mod_cast hne, ?_, ?_⟩
    · intro h2; omega
    · intro h3; omega
  rw [toggle_slot, if_neg hcond]
  cases hsd : s.flags_disabled with
  | false => simp
  | true =>
    have hb := hinv hsd
    cases s
    simp_all

/-- C9.  On a page whose disabled sensors all display "not monitoring"
(the state the handler itself maintains), toggling an enabled sensor i
twice — two MSG_TOGGLE broadcasts with parameter i — restores its
original enabled value, and neither broadcast alters any other sensor's
display string. -/
theorem C9_toggle_roundtrip (st : ToggleState) (i : Nat) (s0 : SensorSlot)
    (hget : st.slots.get? i = some s0)
    (hflags : s0.flags_disabled = false)
    (henabled : s0.enabled = true)
    (hinv : ∀ s ∈ st.slots, s.flags_disabled = true → s.screen_buf = "not monitoring") :
    ((broadcast_toggle (broadcast_toggle st (i : Int)) (i : Int)).slots.get? i).map
        SensorSlot.enabled = some s0.enabled ∧
    ∀ j, j ≠ i →
      ((broadcast_toggle (broadcast_toggle st (i : Int)) (i : Int)).slots.get? j).map
          SensorSlot.screen_buf
        = (st.slots.get? j).map SensorSlot.screen_buf := by
  have hsl : ∀ (st2 : ToggleState), (broadcast_toggle st2 (i : Int)).slots
      = broadcast_slots (i : Int) 0 st2.slots := by
    intro st2
    exact broadcast_go_fst (i : Int) st2.slots 0 st2.globals
  constructor
  · rw [hsl, hsl, broadcast_slots_get, broadcast_slots_get, hget]
    simp only [Nat.zero_add, Option.map_some']
    rw [toggle_slot_matched_on i s0 hflags, toggle_slot_matched_off i _ rfl, henabled]
  · intro j hj
    rw [hsl, hsl, broadcast_slots_get, broadcast_slots_get]
    simp only [Nat.zero_add]
    cases hj2 : st.slots.get? j with
    | none => rfl
    | some sj =>
      have hmem : sj ∈ st.slots := List.get?_mem hj2
      have hu : toggle_slot (i : Int) j sj = sj :=
        toggle_slot_unmatched i j sj hj (hinv sj hmem)
      simp [hu]

/-- C9 witness: on the concrete 2-sensor page, toggling sensor 0 twice
leaves it enabled and leaves sensor 1's display string at "b". -/
theorem C9_toggle_roundtrip_witness :
    ((broadcast_toggle (broadcast_toggle toggle_demo ((0 : Nat) : Int))
        ((0 : Nat) : Int)).slots.get? 0).map SensorSlot.enabled = some true ∧
    ((broadcast_toggle (broadcast_toggle toggle_demo ((0 : Nat) : Int))
        ((0 : Nat) : Int)).slots.get? 1).map SensorSlot.screen_buf = some "b" := by
  have h := C9_toggle_roundtrip toggle_demo 0 ⟨false, true, "a"⟩ rfl rfl rfl (by decide)
  exact ⟨h.1, (h.2 1 (by decide)).trans (by decide)⟩

end Scantool
